import Mathlib

/-!
# Verification of the Opportunity/Account Scoring Engine

Shallow embedding of the scoring core of `open_pipeline_account_score.py`
(`build_account_profiles`, `calculate_normalized_scores`,
`score_open_opportunities` and the `AccountScoringProfile` /
`OpportunityScore` data model), together with proofs and refutations of the
specified properties.

Modelling conventions:
* Python floats are modelled as rationals (`Rat`); all arithmetic performed
  by the engine is exact in this model.
* Dates are modelled by their ordinal day number (`Int`); a Salesforce date
  string field is either absent (`Option.none`, covering Python falsy
  values), present and parseable (`DateField.valid day`), or present but
  rejected by `datetime.strptime` (`DateField.malformed`).
* Python `dict` is modelled as an insertion-ordered association list;
  updating an existing key keeps its position, a new key is appended.
* The Python `set` of product names is modelled as a `Finset String`.
-/

namespace PipelineScore

/-- A date string field as it arrives from Salesforce: `valid day` is a
string whose first ten characters parse as the date with ordinal day number
`day`; `malformed` is a present, non-empty string on which
`datetime.strptime(s[:10], "%Y-%m-%d")` raises. -/
inductive DateField where
  | valid (day : Int)
  | malformed
deriving DecidableEq

/-- One entry of `AccountScoringProfile.closed_opportunities`: the dict
`{"days_to_close": ..., "amount": ..., "close_date": ...}` appended at
line 364 of the source. -/
structure ClosedOppEntry where
  days_to_close : Int
  amount : Rat
  close_date : Int
deriving DecidableEq

/-- The fields of a closed-won record that `build_account_profiles` reads.
`accountId` is `(opp.get("Account") or {}).get("Id")`, with `none` covering
a missing or falsy id (the source tests `if not account_id`); `accountName`
is the `Account.Name` value with default `"Unknown"`; `amount` is
`float(opp.get("Professional_Services_Amount__c") or 0)`; `products` lists
the truthy `Product2.Name` values of the nested line items. -/
structure ClosedWonRecord where
  accountId : Option String
  accountName : String
  amount : Rat
  closeDate : Option DateField
  createdDate : Option DateField
  products : List String
deriving DecidableEq

/-- The only field of a closed-lost record the engine reads. -/
structure ClosedLostRecord where
  accountId : Option String
deriving DecidableEq

/-- `AccountScoringProfile` dataclass (source lines 137-161), with the same
fields and default values. `unique_products` is the Python set of product
names; `most_recent_close_date` and `days_since_last_close` start as
`None`. -/
structure AccountScoringProfile where
  account_id : String
  account_name : String
  total_closed_won : Nat := 0
  total_closed_lost : Nat := 0
  win_rate : Rat := 0
  avg_days_to_close : Rat := 0
  median_days_to_close : Rat := 0
  largest_deal_amount : Rat := 0
  avg_deal_amount : Rat := 0
  total_deal_amount : Rat := 0
  unique_products : Finset String := ∅
  product_count : Nat := 0
  purchase_count : Nat := 0
  has_upsell : Bool := false
  most_recent_close_date : Option Int := none
  days_since_last_close : Option Int := none
  closed_opportunities : List ClosedOppEntry := []
deriving DecidableEq

/-- `AccountScoringProfile.calculate_win_rate` (source lines 163-168): the
value stored into `self.win_rate`; when `total = 0` the method leaves the
field at its current value. -/
def calculate_win_rate (p : AccountScoringProfile) : Rat :=
  let total := p.total_closed_won + p.total_closed_lost
  if 0 < total then ((p.total_closed_won : Rat) / (total : Rat)) * 100 else p.win_rate

/-- `AccountScoringProfile.calculate_product_diversity_score`
(source lines 170-176). -/
def calculate_product_diversity_score (p : AccountScoringProfile) : Rat :=
  if p.product_count = 0 then 0
  else min ((p.product_count : Rat) * 20) 100

/-- `AccountScoringProfile.calculate_upsell_score` (source lines 178-186). -/
def calculate_upsell_score (p : AccountScoringProfile) : Rat :=
  if 3 ≤ p.purchase_count then 100
  else if p.purchase_count = 2 then 70
  else if p.purchase_count = 1 then 30
  else 0

/-- The `profiles` dict: insertion-ordered map from account id to profile. -/
abbrev ProfileMap := List (String × AccountScoringProfile)

/-- Python dict lookup `profiles.get(k)`. -/
def lookupProfile : ProfileMap → String → Option AccountScoringProfile
  | [], _ => none
  | (k, p) :: rest, key => if k = key then some p else lookupProfile rest key

/-- Python dict assignment `profiles[k] = p`: an existing key keeps its
position, a new key is appended at the end. -/
def setProfile : ProfileMap → String → AccountScoringProfile → ProfileMap
  | [], key, p => [(key, p)]
  | (k, q) :: rest, key, p =>
      if k = key then (key, p) :: rest else (k, q) :: setProfile rest key p

/-- Fresh profile created on first sight of an account
(source lines 346-349). -/
def initProfile (aid aname : String) : AccountScoringProfile :=
  { account_id := aid, account_name := aname }

/-- Date-parsing block of the closed-won loop (source lines 353-370): if
both date strings are present and both parse, and the resulting
`days_to_close` is strictly positive, append an entry to
`closed_opportunities`; any `strptime` failure is swallowed by the bare
`except: pass`. -/
def addCycleEntry (opp : ClosedWonRecord) (p : AccountScoringProfile) :
    AccountScoringProfile :=
  match opp.closeDate, opp.createdDate with
  | some (.valid cd), some (.valid crd) =>
      let days := cd - crd
      if 0 < days then
        { p with closed_opportunities :=
            p.closed_opportunities ++
              [{ days_to_close := days, amount := opp.amount, close_date := cd }] }
      else p
  | _, _ => p

/-- Count/amount block of the closed-won loop (source lines 372-378). -/
def addWonCounts (opp : ClosedWonRecord) (p : AccountScoringProfile) :
    AccountScoringProfile :=
  let p := { p with
    total_closed_won := p.total_closed_won + 1,
    total_deal_amount := p.total_deal_amount + opp.amount }
  if p.largest_deal_amount < opp.amount then
    { p with largest_deal_amount := opp.amount }
  else p

/-- Product-mix block of the closed-won loop (source lines 380-387). -/
def addProducts (opp : ClosedWonRecord) (p : AccountScoringProfile) :
    AccountScoringProfile :=
  { p with unique_products :=
      opp.products.foldl (fun s nm => insert nm s) p.unique_products }

/-- Most-recent-close block of the closed-won loop (source lines 389-396);
a malformed close date is swallowed by the bare `except: pass`. -/
def updateMostRecent (opp : ClosedWonRecord) (p : AccountScoringProfile) :
    AccountScoringProfile :=
  match opp.closeDate with
  | some (.valid cd) =>
      match p.most_recent_close_date with
      | none => { p with most_recent_close_date := some cd }
      | some prev =>
          if prev < cd then { p with most_recent_close_date := some cd } else p
  | _ => p

/-- The whole per-record mutation of the closed-won loop, in source order:
dates, counts/amounts, products, most recent close. -/
def wonUpdate (opp : ClosedWonRecord) (p : AccountScoringProfile) :
    AccountScoringProfile :=
  updateMostRecent opp (addProducts opp (addWonCounts opp (addCycleEntry opp p)))

/-- One iteration of the closed-won loop of `build_account_profiles`
(source lines 338-396). -/
def processWonRecord (m : ProfileMap) (opp : ClosedWonRecord) : ProfileMap :=
  match opp.accountId with
  | none => m
  | some aid =>
      setProfile m aid
        (wonUpdate opp ((lookupProfile m aid).getD (initProfile aid opp.accountName)))

/-- One iteration of the closed-lost loop of `build_account_profiles`
(source lines 398-402): a loss counts only if the account already has a
profile. -/
def processLostRecord (m : ProfileMap) (opp : ClosedLostRecord) : ProfileMap :=
  match opp.accountId with
  | none => m
  | some aid =>
      match lookupProfile m aid with
      | some p => setProfile m aid { p with total_closed_lost := p.total_closed_lost + 1 }
      | none => m

/-- `statistics.mean`; the Python function raises on an empty sample, every
caller in the source guards for non-emptiness, and the `0` returned here on
`[]` is never observed. -/
def listMean (l : List Rat) : Rat :=
  if l.isEmpty then 0 else l.sum / (l.length : Rat)

/-- Insert into a sorted list, used to model Python `sorted`. -/
def insertSorted (a : Rat) : List Rat → List Rat
  | [] => [a]
  | b :: bs => if a ≤ b then a :: b :: bs else b :: insertSorted a bs

/-- Python `sorted` on a list of numbers (insertion sort; the values, which
are all `statistics.median` inspects, agree with any sort). -/
def sortRat (l : List Rat) : List Rat := l.foldr insertSorted []

/-- `statistics.median`: middle element of the sorted sample, or the mean of
the two middle elements for an even-sized sample. The Python function
raises on an empty sample; every caller guards, so the `0` is never
observed. -/
def listMedian (l : List Rat) : Rat :=
  let s := sortRat l
  let n := s.length
  if n = 0 then 0
  else if n % 2 = 1 then s.getD (n / 2) 0
  else (s.getD (n / 2 - 1) 0 + s.getD (n / 2) 0) / 2

/-- Python `min` over a non-empty list (callers guard; `0` never observed). -/
def listMin : List Rat → Rat
  | [] => 0
  | a :: rest => rest.foldl min a

/-- Python `max` over a non-empty list (callers guard; `0` never observed). -/
def listMax : List Rat → Rat
  | [] => 0
  | a :: rest => rest.foldl max a

/-- The derived-metric block of the aggregation pass (source lines
411-418): executed only when `closed_opportunities` is non-empty, exactly
as in the source (`if profile.closed_opportunities:`); the sequencing of
the assignments (in particular `purchase_count` before `has_upsell`)
follows the source. -/
def finalizeDerived (p : AccountScoringProfile) : AccountScoringProfile :=
  if p.closed_opportunities.isEmpty then p
  else
    let days_list := p.closed_opportunities.map (fun e => (e.days_to_close : Rat))
    let p := { p with avg_days_to_close := listMean days_list }
    let p := { p with median_days_to_close := listMedian days_list }
    let p := { p with avg_deal_amount := p.total_deal_amount / (p.total_closed_won : Rat) }
    let p := { p with purchase_count := p.total_closed_won }
    let p := { p with product_count := p.unique_products.card }
    { p with has_upsell := decide (1 < p.purchase_count) }

/-- The recency step of the aggregation pass (source lines 420-422). -/
def finalizeRecency (today : Int) (p : AccountScoringProfile) :
    AccountScoringProfile :=
  match p.most_recent_close_date with
  | some d => { p with days_since_last_close := some (today - d) }
  | none => p

/-- Aggregation pass of `build_account_profiles` (source lines 404-422),
performed on every profile after both loops: win rate first, then the
derived metrics, then recency. -/
def finalizeProfile (today : Int) (p : AccountScoringProfile) :
    AccountScoringProfile :=
  finalizeRecency today (finalizeDerived { p with win_rate := calculate_win_rate p })

/-- `build_account_profiles` (source lines 330-427). `today` is
`date.today()` as an ordinal day number. -/
def build_account_profiles (today : Int) (closed_won : List ClosedWonRecord)
    (closed_lost : List ClosedLostRecord) : ProfileMap :=
  let m := closed_won.foldl processWonRecord []
  let m := closed_lost.foldl processLostRecord m
  m.map (fun e => (e.1, finalizeProfile today e.2))

/-- One `(min, max, median, mean, ...)` tuple of `calculate_normalized_scores`.
The source additionally stores a sample standard deviation as the fifth
component; no consumer of the statistics ever reads it (the scorer uses
only the maximum, component `[1]`), and being irrational-valued it is not
carried in this rational model. -/
structure MetricStats where
  lo : Rat
  hi : Rat
  med : Rat
  avg : Rat
deriving DecidableEq

/-- The `stats` dict returned by `calculate_normalized_scores`. -/
structure NormalizedStats where
  win_rate : MetricStats
  days_to_close : MetricStats
  largest_deal : MetricStats
  product_count : MetricStats
deriving DecidableEq

/-- One tuple of `calculate_normalized_scores` (source lines 440-469): each
component falls back to a fixed default when the value list is empty. -/
def metricStatsOf (values : List Rat) (dlo dhi dmed davg : Rat) : MetricStats :=
  { lo := if values.isEmpty then dlo else listMin values
    hi := if values.isEmpty then dhi else listMax values
    med := if values.isEmpty then dmed else listMedian values
    avg := if values.isEmpty then davg else listMean values }

/-- `calculate_normalized_scores` (source lines 429-471). -/
def calculate_normalized_scores (profiles : ProfileMap) : NormalizedStats :=
  let ps := profiles.map (fun e => e.2)
  let win_rates := (ps.filter (fun p => decide (0 < p.total_closed_won))).map
    (fun p => p.win_rate)
  let days_to_close := (ps.filter (fun p => decide (0 < p.avg_days_to_close))).map
    (fun p => p.avg_days_to_close)
  let largest_deals := (ps.filter (fun p => decide (0 < p.largest_deal_amount))).map
    (fun p => p.largest_deal_amount)
  let product_counts := ps.map (fun p => (p.product_count : Rat))
  { win_rate := metricStatsOf win_rates 0 100 50 50
    days_to_close := metricStatsOf days_to_close 0 365 90 90
    largest_deal := metricStatsOf largest_deals 0 1000000 50000 50000
    product_count := metricStatsOf product_counts 0 10 1 1 }

/-- `OpportunityScore` dataclass (source lines 188-213), same fields and
defaults. `close_date` is an ordinal day number. -/
structure OpportunityScore where
  opportunity_id : String
  opportunity_name : String
  account_id : String
  account_name : String
  amount : Rat
  stage : String
  close_date : Int
  owner_name : String
  commit : Option String := none
  account_score : Rat := 0
  opportunity_score : Rat := 0
  speed_score : Rat := 0
  deal_size_score : Rat := 0
  product_mix_score : Rat := 0
  upsell_score : Rat := 0
  win_rate_score : Rat := 0
  recency_score : Rat := 0
  confidence_level : String := "Medium"
  score_explanation : String := ""
deriving DecidableEq

/-- The fields of an open-pipeline record that `score_open_opportunities`
reads. As for `ClosedWonRecord`, `none` in `accountId` covers a missing or
falsy id and `none` in `commit` covers `opp.get("Sales_Commit__c") or
None`; `closeDate` is `none` when `opp.get("CloseDate")` is falsy. -/
structure OpenOppRecord where
  id : String
  name : String
  accountId : Option String
  accountName : String
  amount : Rat
  stage : String
  commit : Option String
  closeDate : Option DateField
  ownerName : String
deriving DecidableEq

/-- The `close_date` expression of the `OpportunityScore` constructor call
(source line 498): a falsy `CloseDate` yields `date.today()`, a parseable
one its date, and a present but malformed one raises `ValueError` out of
`score_open_opportunities` (there is no try/except on this path), modelled
as `Except.error`. -/
def parseOpenCloseDate (today : Int) : Option DateField → Except Unit Int
  | none => .ok today
  | some (.valid d) => .ok d
  | some .malformed => .error ()

/-- The effective denominator of the speed normalization
(source line 511): `stats["days_to_close"][1] if stats["days_to_close"][1] > 0
else 365`. -/
def maxDaysDenom (stats : NormalizedStats) : Rat :=
  if 0 < stats.days_to_close.hi then stats.days_to_close.hi else 365

/-- The effective denominator of the deal-size normalization
(source line 520): `stats["largest_deal"][1] if stats["largest_deal"][1] > 0
else 1000000`. -/
def maxDealDenom (stats : NormalizedStats) : Rat :=
  if 0 < stats.largest_deal.hi then stats.largest_deal.hi else 1000000

/-- Speed-to-close sub-score (source lines 508-516). -/
def speedScore (profile : AccountScoringProfile) (stats : NormalizedStats) : Rat :=
  if 0 < profile.avg_days_to_close then
    let speed_normalized :=
      max 0 (100 - (profile.avg_days_to_close / maxDaysDenom stats) * 100)
    min 100 (max 0 speed_normalized)
  else 50

/-- Deal-size sub-score (source lines 518-525). -/
def dealSizeScore (profile : AccountScoringProfile) (stats : NormalizedStats) : Rat :=
  if 0 < profile.largest_deal_amount then
    let deal_normalized := (profile.largest_deal_amount / maxDealDenom stats) * 100
    min 100 (max 0 deal_normalized)
  else 25

/-- Win-rate sub-score (source line 534). -/
def winRateScore (profile : AccountScoringProfile) : Rat :=
  min 100 profile.win_rate

/-- Recency sub-score (source lines 536-548). -/
def recencyScore (profile : AccountScoringProfile) : Rat :=
  match profile.days_since_last_close with
  | some d =>
      if d ≤ 90 then 100
      else if d ≤ 180 then 75
      else if d ≤ 365 then 50
      else 25
  | none => 50

/-- Weighted composite account score (source lines 550-568). -/
def accountScoreOf (profile : AccountScoringProfile) (stats : NormalizedStats) : Rat :=
  speedScore profile stats * 0.15 +
  dealSizeScore profile stats * 0.20 +
  calculate_product_diversity_score profile * 0.15 +
  calculate_upsell_score profile * 0.25 +
  winRateScore profile * 0.20 +
  recencyScore profile * 0.05

/-- `opp_amount_score` (source lines 570-582): initialized to `0` and set
by the ratio buckets only when `avg_deal_amount > 0`. -/
def oppAmountScore (profile : AccountScoringProfile) (amount : Rat) : Rat :=
  if 0 < profile.avg_deal_amount then
    let ratio := amount / profile.avg_deal_amount
    if 1.5 ≤ ratio then 100
    else if 1 ≤ ratio then 75
    else if 0.75 ≤ ratio then 50
    else 25
  else 0

/-- Confidence tier (source lines 587-593). -/
def confidenceLevel (profile : AccountScoringProfile) : String :=
  if 3 ≤ profile.total_closed_won then "High"
  else if 2 ≤ profile.total_closed_won then "Medium"
  else "Low"

/-- Rendering of a rational under Python's `"{:.0f}"` format. The exact
text (Python rounds half to even and `"{:,.0f}"` inserts thousands
separators, neither reproduced here) is advisory only: no property below
inspects the historical explanation string. -/
def fmtRat (q : Rat) : String := toString (round q)

/-- Explanation string of the historical branch (source lines 595-600). -/
def histExplanation (profile : AccountScoringProfile) : String :=
  "Account has " ++ toString profile.total_closed_won ++ " closed won deal(s). " ++
  "Avg " ++ fmtRat profile.avg_days_to_close ++ " days to close. " ++
  "Largest deal: $" ++ fmtRat profile.largest_deal_amount ++ ". " ++
  (if profile.has_upsell then
    "Has " ++ toString profile.purchase_count ++ " purchase(s) (upsell potential). "
  else "")

/-- Historical branch of the scorer (source lines 505-600): fills the six
component sub-scores, both composites, the confidence tier and the
explanation. -/
def applyHistoricalScores (profile : AccountScoringProfile)
    (stats : NormalizedStats) (s : OpportunityScore) : OpportunityScore :=
  { s with
    speed_score := speedScore profile stats
    deal_size_score := dealSizeScore profile stats
    product_mix_score := calculate_product_diversity_score profile
    upsell_score := calculate_upsell_score profile
    win_rate_score := winRateScore profile
    recency_score := recencyScore profile
    account_score := accountScoreOf profile stats
    opportunity_score :=
      accountScoreOf profile stats * 0.70 + oppAmountScore profile s.amount * 0.30
    confidence_level := confidenceLevel profile
    score_explanation := histExplanation profile }

/-- Cold branch of the scorer (source lines 602-607): the component
sub-score fields are left untouched. -/
def applyColdScores (s : OpportunityScore) : OpportunityScore :=
  { s with
    account_score := 50
    opportunity_score := 50
    confidence_level := "Low"
    score_explanation := "New account - no historical data available." }

/-- The `OpportunityScore(...)` constructor call (source lines 490-500):
identity fields copied from the record, every score field left at its
dataclass default. -/
def baseScore (o : OpenOppRecord) (aid : String) (cd : Int) : OpportunityScore :=
  { opportunity_id := o.id
    opportunity_name := o.name
    account_id := aid
    account_name := o.accountName
    amount := o.amount
    stage := o.stage
    commit := o.commit
    close_date := cd
    owner_name := o.ownerName }

/-- One iteration of the scoring loop (source lines 483-609): skip the
record when the account id is falsy (`.ok none`); otherwise build the base
`OpportunityScore` (whose construction can raise on a malformed
`CloseDate`) and apply the historical or the cold branch depending on
`profiles.get(account_id)` and its `total_closed_won`. -/
def scoreRecord (today : Int) (profiles : ProfileMap) (stats : NormalizedStats)
    (o : OpenOppRecord) : Except Unit (Option OpportunityScore) :=
  match o.accountId with
  | none => .ok none
  | some aid =>
      match parseOpenCloseDate today o.closeDate with
      | .error e => .error e
      | .ok cd =>
          let base : OpportunityScore := baseScore o aid cd
          match lookupProfile profiles aid with
          | some profile =>
              .ok (some (if 0 < profile.total_closed_won then
                applyHistoricalScores profile stats base
              else applyColdScores base))
          | none => .ok (some (applyColdScores base))

/-- `score_open_opportunities` (source lines 473-611). An uncaught
`ValueError` from a malformed `CloseDate` aborts the whole batch
(`Except.error`); a record skipped for a missing account id contributes
nothing; every other record contributes exactly one score, in input
order. -/
def score_open_opportunities (today : Int) (open_opps : List OpenOppRecord)
    (profiles : ProfileMap) (stats : NormalizedStats) :
    Except Unit (List OpportunityScore) :=
  match open_opps with
  | [] => .ok []
  | o :: rest =>
      match scoreRecord today profiles stats o with
      | .error e => .error e
      | .ok none => score_open_opportunities today rest profiles stats
      | .ok (some s) =>
          match score_open_opportunities today rest profiles stats with
          | .error e => .error e
          | .ok tl => .ok (s :: tl)

/-! ## Characterization helpers -/

/-- The cycle-time contribution of a single closed-won record, as the
date-parsing block of `build_account_profiles` computes it: an entry is
produced exactly when both date strings are present and parseable and the
duration is strictly positive. -/
def cycleContribution (r : ClosedWonRecord) : Option ClosedOppEntry :=
  match r.closeDate, r.createdDate with
  | some (.valid cd), some (.valid crd) =>
      if 0 < cd - crd then
        some { days_to_close := cd - crd, amount := r.amount, close_date := cd }
      else none
  | _, _ => none

/-- The closed-won records of the input that carry a given account id. -/
def wonRecordsFor (k : String) (cw : List ClosedWonRecord) : List ClosedWonRecord :=
  cw.filter (fun r => decide (r.accountId = some k))

/-- Running maximum starting from `0`, mirroring the sequential
`if amount > largest` update of the closed-won loop. -/
def runningMax (l : List Rat) : Rat :=
  l.foldl (fun m a => if m < a then a else m) 0

/-- The value the most-recent-close block stores. -/
def newMostRecent (opp : ClosedWonRecord) (p : AccountScoringProfile) : Option Int :=
  match opp.closeDate with
  | some (.valid cd) =>
      match p.most_recent_close_date with
      | none => some cd
      | some prev => if prev < cd then some cd else some prev
  | _ => p.most_recent_close_date

/-- What the closed-won loop has accumulated for account `k` after
processing the records `cw`: the win count, the deal-amount total, the
running largest deal, the cycle-time sample, and an untouched
`win_rate`. -/
def WonBundle (cw : List ClosedWonRecord) (k : String)
    (p : AccountScoringProfile) : Prop :=
  p.total_closed_won = (wonRecordsFor k cw).length ∧
  p.total_deal_amount = ((wonRecordsFor k cw).map (fun r => r.amount)).sum ∧
  p.largest_deal_amount =
    runningMax ((wonRecordsFor k cw).map (fun r => r.amount)) ∧
  p.closed_opportunities = (wonRecordsFor k cw).filterMap cycleContribution ∧
  p.win_rate = 0

/-- Loop invariant of the closed-won loop of `build_account_profiles`:
keys are distinct, absent keys have no matching processed record, and
present keys carry exactly the accumulation over their matching
records. -/
def Phase1Inv (done : List ClosedWonRecord) (m : ProfileMap) : Prop :=
  (m.map Prod.fst).Nodup ∧
  ∀ k : String,
    (lookupProfile m k = none → wonRecordsFor k done = []) ∧
    (∀ p, lookupProfile m k = some p → WonBundle done k p)

/-- The fields accumulated by the closed-won loop that the later phases
rely on, preserved from `p` to `q`. The closed-lost loop changes only
`total_closed_lost`, so it preserves all of them. -/
def WonFieldsPreserved (p q : AccountScoringProfile) : Prop :=
  q.total_closed_won = p.total_closed_won ∧
  q.total_deal_amount = p.total_deal_amount ∧
  q.largest_deal_amount = p.largest_deal_amount ∧
  q.closed_opportunities = p.closed_opportunities ∧
  q.win_rate = p.win_rate ∧
  q.unique_products = p.unique_products

/-- Invariant of the closed-lost loop, relating the map after the loop to
the map produced by the closed-won loop. -/
def Phase2Inv (m m2 : ProfileMap) : Prop :=
  m2.map Prod.fst = m.map Prod.fst ∧
  ∀ k p2, lookupProfile m2 k = some p2 →
    ∃ p, lookupProfile m k = some p ∧ WonFieldsPreserved p p2

/-! ### Concrete records used by witnesses and counterexamples -/

/-- A closed-won record whose dates both parse (10-day cycle). -/
def cwGoodRecord : ClosedWonRecord :=
  { accountId := some "001G", accountName := "Gamma", amount := 100,
    closeDate := some (DateField.valid 10), createdDate := some (DateField.valid 0),
    products := ["P1"] }

def cwGood : List ClosedWonRecord := [cwGoodRecord]

def clGood : List ClosedLostRecord := [{ accountId := some "001G" }]

/-- The profile `build_account_profiles 20 cwGood clGood` produces for
account `"001G"`. -/
def gProfile : AccountScoringProfile :=
  { account_id := "001G", account_name := "Gamma",
    total_closed_won := 1, total_closed_lost := 1, win_rate := 50,
    avg_days_to_close := 10, median_days_to_close := 10,
    largest_deal_amount := 100, avg_deal_amount := 100, total_deal_amount := 100,
    unique_products := {"P1"}, product_count := 1, purchase_count := 1,
    has_upsell := false, most_recent_close_date := some 10,
    days_since_last_close := some 10,
    closed_opportunities := [{ days_to_close := 10, amount := 100, close_date := 10 }] }

/-- A single closed-won record whose close date fails to parse: the account
is profiled with one win, but its cycle-time sample stays empty. -/
def cwAllMalformed : List ClosedWonRecord :=
  [{ accountId := some "001A", accountName := "Acme", amount := 100,
     closeDate := some DateField.malformed, createdDate := some (DateField.valid 0),
     products := ["Widget"] }]

/-- A single closed-won record whose close and created dates are equal, so
both parse and close ≥ created with a zero-day duration. -/
def cwZeroDay : List ClosedWonRecord :=
  [{ accountId := some "001B", accountName := "Beta", amount := 50,
     closeDate := some (DateField.valid 5), createdDate := some (DateField.valid 5),
     products := [] }]

/-- An open opportunity on an account with no profile. -/
def oCold : OpenOppRecord :=
  { id := "006X", name := "Deal X", accountId := some "001N",
    accountName := "NewCo", amount := 75, stage := "Prospecting",
    commit := none, closeDate := some (DateField.valid 30), ownerName := "Riley" }

/-- An open opportunity with no account id. -/
def oNoAcct : OpenOppRecord :=
  { id := "006Y", name := "Deal Y", accountId := none,
    accountName := "Unknown", amount := 10, stage := "Prospecting",
    commit := none, closeDate := none, ownerName := "Riley" }

/-- The score `score_open_opportunities` computes for `oCold` against an
empty profile map. -/
def sCold : OpportunityScore :=
  { opportunity_id := "006X", opportunity_name := "Deal X",
    account_id := "001N", account_name := "NewCo", amount := 75,
    stage := "Prospecting", close_date := 30, owner_name := "Riley",
    commit := none, account_score := 50, opportunity_score := 50,
    confidence_level := "Low",
    score_explanation := "New account - no historical data available." }

/-- An open opportunity with an account id but an unparsable close date:
the `OpportunityScore` constructor call raises `ValueError` out of the
batch. -/
def oBadDate : OpenOppRecord :=
  { id := "006Z", name := "Deal Z", accountId := some "001Z",
    accountName := "ZetaCo", amount := 20, stage := "Prospecting",
    commit := none, closeDate := some DateField.malformed, ownerName := "Riley" }

/-- The fallback statistics of an empty cohort. -/
def statsEmpty : NormalizedStats := calculate_normalized_scores []

theorem wonRecordsFor_append_one (k : String) (done : List ClosedWonRecord)
    (r : ClosedWonRecord) :
    wonRecordsFor k (done ++ [r]) =
      wonRecordsFor k done ++ (if r.accountId = some k then [r] else []) := by
  by_cases h : r.accountId = some k <;>
    simp [wonRecordsFor, List.filter_append, h]

theorem runningMax_append_one (l : List Rat) (a : Rat) :
    runningMax (l ++ [a]) = if runningMax l < a then a else runningMax l := by
  simp [runningMax, List.foldl_append]

theorem filterMap_append_one {α β : Type} (f : α → Option β) (l : List α) (a : α) :
    (l ++ [a]).filterMap f = l.filterMap f ++ (f a).toList := by
  cases h : f a <;> simp [List.filterMap_append, List.filterMap, h]

theorem addCycleEntry_eq (opp : ClosedWonRecord) (p : AccountScoringProfile) :
    addCycleEntry opp p =
      { p with closed_opportunities :=
          p.closed_opportunities ++ (cycleContribution opp).toList } := by
  rcases hc : opp.closeDate with _ | df
  · simp [addCycleEntry, cycleContribution, hc]
  · rcases df with d | _
    · rcases hr : opp.createdDate with _ | df2
      · simp [addCycleEntry, cycleContribution, hc, hr]
      · rcases df2 with d2 | _
        · simp only [addCycleEntry, cycleContribution, hc, hr]
          split <;> simp
        · simp [addCycleEntry, cycleContribution, hc, hr]
    · simp [addCycleEntry, cycleContribution, hc]

theorem addWonCounts_eq (opp : ClosedWonRecord) (p : AccountScoringProfile) :
    addWonCounts opp p =
      { p with
          total_closed_won := p.total_closed_won + 1,
          total_deal_amount := p.total_deal_amount + opp.amount,
          largest_deal_amount :=
            if p.largest_deal_amount < opp.amount then opp.amount
            else p.largest_deal_amount } := by
  dsimp only [addWonCounts]
  split <;> rename_i h <;> simp [h]

theorem addProducts_eq (opp : ClosedWonRecord) (p : AccountScoringProfile) :
    addProducts opp p =
      { p with unique_products :=
          opp.products.foldl (fun s nm => insert nm s) p.unique_products } := rfl

theorem updateMostRecent_eq (opp : ClosedWonRecord) (p : AccountScoringProfile) :
    updateMostRecent opp p =
      { p with most_recent_close_date := newMostRecent opp p } := by
  rcases hc : opp.closeDate with _ | df
  · simp [updateMostRecent, newMostRecent, hc]
  · rcases df with d | _
    · rcases hm : p.most_recent_close_date with _ | prev
      · simp [updateMostRecent, newMostRecent, hc, hm]
      · simp only [updateMostRecent, newMostRecent, hc, hm]
        split <;> rename_i h <;> simp [h, ← hm]
    · simp [updateMostRecent, newMostRecent, hc]

theorem wonUpdate_fields (opp : ClosedWonRecord) (p : AccountScoringProfile) :
    (wonUpdate opp p).total_closed_won = p.total_closed_won + 1 ∧
    (wonUpdate opp p).total_deal_amount = p.total_deal_amount + opp.amount ∧
    (wonUpdate opp p).largest_deal_amount =
      (if p.largest_deal_amount < opp.amount then opp.amount
       else p.largest_deal_amount) ∧
    (wonUpdate opp p).closed_opportunities =
      p.closed_opportunities ++ (cycleContribution opp).toList ∧
    (wonUpdate opp p).win_rate = p.win_rate ∧
    (wonUpdate opp p).total_closed_lost = p.total_closed_lost := by
  unfold wonUpdate
  rw [addCycleEntry_eq, addWonCounts_eq, addProducts_eq, updateMostRecent_eq]
  exact ⟨rfl, rfl, rfl, rfl, rfl, rfl⟩

theorem lookupProfile_set_self (m : ProfileMap) (k : String)
    (p : AccountScoringProfile) :
    lookupProfile (setProfile m k p) k = some p := by
  induction m with
  | nil => simp [setProfile, lookupProfile]
  | cons e rest ih =>
      obtain ⟨k1, q⟩ := e
      by_cases h : k1 = k <;> simp [setProfile, lookupProfile, h, ih]

theorem lookupProfile_set_ne (m : ProfileMap) (k : String)
    (p : AccountScoringProfile) (key : String) (h : key ≠ k) :
    lookupProfile (setProfile m k p) key = lookupProfile m key := by
  have hk : ¬ (k = key) := fun hh => h hh.symm
  induction m with
  | nil => simp [setProfile, lookupProfile, hk]
  | cons e rest ih =>
      obtain ⟨k1, q⟩ := e
      by_cases h1 : k1 = k
      · subst h1
        simp [setProfile, lookupProfile, hk]
      · simp [setProfile, lookupProfile, h1, ih]

theorem keys_set_of_lookup_some (m : ProfileMap) (k : String)
    (p q : AccountScoringProfile) (h : lookupProfile m k = some q) :
    (setProfile m k p).map Prod.fst = m.map Prod.fst := by
  induction m with
  | nil => simp [lookupProfile] at h
  | cons e rest ih =>
      obtain ⟨k1, q1⟩ := e
      by_cases h1 : k1 = k
      · simp [setProfile, h1]
      · simp only [lookupProfile, h1, if_false] at h
        simp [setProfile, h1, ih h]

theorem keys_set_of_lookup_none (m : ProfileMap) (k : String)
    (p : AccountScoringProfile) (h : lookupProfile m k = none) :
    (setProfile m k p).map Prod.fst = m.map Prod.fst ++ [k] := by
  induction m with
  | nil => simp [setProfile]
  | cons e rest ih =>
      obtain ⟨k1, q1⟩ := e
      by_cases h1 : k1 = k
      · simp [lookupProfile, h1] at h
      · simp only [lookupProfile, h1, if_false] at h
        simp [setProfile, h1, ih h]

theorem lookupProfile_eq_none_iff (m : ProfileMap) (k : String) :
    lookupProfile m k = none ↔ k ∉ m.map Prod.fst := by
  induction m with
  | nil => simp [lookupProfile]
  | cons e rest ih =>
      obtain ⟨k1, q1⟩ := e
      by_cases h1 : k1 = k
      · subst h1
        simp [lookupProfile]
      · have h2 : ¬ (k = k1) := fun hh => h1 hh.symm
        simp [lookupProfile, h1, h2, ih]

theorem lookupProfile_of_mem (m : ProfileMap) (k : String)
    (q : AccountScoringProfile) (hn : (m.map Prod.fst).Nodup)
    (h : (k, q) ∈ m) : lookupProfile m k = some q := by
  induction m with
  | nil => simp at h
  | cons e rest ih =>
      obtain ⟨k1, q1⟩ := e
      simp only [List.map_cons, List.nodup_cons] at hn
      rcases List.mem_cons.mp h with h | h
      · injection h with h2 h3
        subst h2
        subst h3
        simp [lookupProfile]
      · have hk : ¬ (k1 = k) := by
          rintro rfl
          exact hn.1 (List.mem_map.mpr ⟨(k1, q), h, rfl⟩)
        simp only [lookupProfile, hk, if_false]
        exact ih hn.2 h

/-! ## The accumulation invariant of the closed-won loop -/

theorem phase1_step (done : List ClosedWonRecord) (m : ProfileMap)
    (r : ClosedWonRecord) (h : Phase1Inv done m) :
    Phase1Inv (done ++ [r]) (processWonRecord m r) := by
  obtain ⟨hnodup, hk⟩ := h
  rcases hacc : r.accountId with _ | aid
  · have hm : processWonRecord m r = m := by simp [processWonRecord, hacc]
    rw [hm]
    refine ⟨hnodup, fun k => ?_⟩
    have hr : wonRecordsFor k (done ++ [r]) = wonRecordsFor k done := by
      rw [wonRecordsFor_append_one]
      simp [hacc]
    refine ⟨fun hnone => ?_, fun p hp => ?_⟩
    · rw [hr]
      exact (hk k).1 hnone
    · have hb := (hk k).2 p hp
      unfold WonBundle at hb ⊢
      rw [hr]
      exact hb
  · have hm : processWonRecord m r =
        setProfile m aid
          (wonUpdate r ((lookupProfile m aid).getD (initProfile aid r.accountName))) := by
      simp [processWonRecord, hacc]
    rw [hm]
    set p0 := (lookupProfile m aid).getD (initProfile aid r.accountName) with hp0def
    obtain ⟨h1, h2, h3, h4, h5, h6⟩ := wonUpdate_fields r p0
    have hbundle : WonBundle done aid p0 := by
      rcases hl : lookupProfile m aid with _ | q
      · have he : p0 = initProfile aid r.accountName := by
          rw [hp0def, hl]
          rfl
        have hw : wonRecordsFor aid done = [] := (hk aid).1 hl
        unfold WonBundle
        rw [he, hw]
        exact ⟨rfl, rfl, rfl, rfl, rfl⟩
      · have he : p0 = q := by
          rw [hp0def, hl]
          rfl
        rw [he]
        exact (hk aid).2 q hl
    have hren : wonRecordsFor aid (done ++ [r]) = wonRecordsFor aid done ++ [r] := by
      rw [wonRecordsFor_append_one]
      simp [hacc]
    obtain ⟨b1, b2, b3, b4, b5⟩ := hbundle
    have hnew : WonBundle (done ++ [r]) aid (wonUpdate r p0) := by
      unfold WonBundle
      rw [hren]
      refine ⟨?_, ?_, ?_, ?_, ?_⟩
      · rw [h1, b1]
        simp
      · rw [h2, b2]
        simp
      · rw [h3, b3]
        simp [runningMax_append_one]
      · rw [h4, b4, filterMap_append_one]
      · rw [h5, b5]
    refine ⟨?_, fun k => ?_⟩
    · rcases hl : lookupProfile m aid with _ | q
      · rw [keys_set_of_lookup_none m aid _ hl]
        have haid : aid ∉ m.map Prod.fst := (lookupProfile_eq_none_iff m aid).mp hl
        simp [List.nodup_append, hnodup, haid]
      · rw [keys_set_of_lookup_some m aid _ q hl]
        exact hnodup
    · by_cases hkey : k = aid
      · subst hkey
        rw [lookupProfile_set_self]
        refine ⟨fun hc => by simp at hc, fun p hp => ?_⟩
        injection hp with h7
        rw [← h7]
        exact hnew
      · rw [lookupProfile_set_ne m aid _ k hkey]
        have hr : wonRecordsFor k (done ++ [r]) = wonRecordsFor k done := by
          rw [wonRecordsFor_append_one]
          have hne : ¬ (r.accountId = some k) := by
            rw [hacc]
            simp only [Option.some.injEq]
            exact fun hh => hkey hh.symm
          simp [hne]
        refine ⟨fun hnone => ?_, fun p hp => ?_⟩
        · rw [hr]
          exact (hk k).1 hnone
        · have hb := (hk k).2 p hp
          unfold WonBundle at hb ⊢
          rw [hr]
          exact hb

theorem phase1_fold (rest : List ClosedWonRecord) :
    ∀ (done : List ClosedWonRecord) (m : ProfileMap), Phase1Inv done m →
      Phase1Inv (done ++ rest) (rest.foldl processWonRecord m) := by
  induction rest with
  | nil => intro done m h; simpa using h
  | cons r rest ih =>
      intro done m h
      have h2 := ih (done ++ [r]) (processWonRecord m r) (phase1_step done m r h)
      simpa using h2

theorem phase1_inv_of_fold (cw : List ClosedWonRecord) :
    Phase1Inv cw (cw.foldl processWonRecord []) := by
  have h0 : Phase1Inv [] [] := by
    refine ⟨List.nodup_nil, fun k => ⟨fun _ => rfl, fun p hp => ?_⟩⟩
    simp [lookupProfile] at hp
  simpa using phase1_fold cw [] [] h0

/-! ## The closed-lost loop touches only the loss counter -/

theorem phase2_step (m m2 : ProfileMap) (r : ClosedLostRecord)
    (h : Phase2Inv m m2) : Phase2Inv m (processLostRecord m2 r) := by
  obtain ⟨hkeys, hl⟩ := h
  rcases hacc : r.accountId with _ | aid
  · have hm : processLostRecord m2 r = m2 := by simp [processLostRecord, hacc]
    rw [hm]
    exact ⟨hkeys, hl⟩
  · rcases hq : lookupProfile m2 aid with _ | q
    · have hm : processLostRecord m2 r = m2 := by
        simp [processLostRecord, hacc, hq]
      rw [hm]
      exact ⟨hkeys, hl⟩
    · have hm : processLostRecord m2 r =
          setProfile m2 aid { q with total_closed_lost := q.total_closed_lost + 1 } := by
        simp [processLostRecord, hacc, hq]
      rw [hm]
      refine ⟨?_, ?_⟩
      · rw [keys_set_of_lookup_some m2 aid _ q hq]
        exact hkeys
      · intro k p2 hp2
        by_cases hkey : k = aid
        · subst hkey
          rw [lookupProfile_set_self] at hp2
          injection hp2 with hp2e
          obtain ⟨p, hp, hpres⟩ := hl k q hq
          refine ⟨p, hp, ?_⟩
          rw [← hp2e]
          exact ⟨hpres.1, hpres.2.1, hpres.2.2.1, hpres.2.2.2.1,
            hpres.2.2.2.2.1, hpres.2.2.2.2.2⟩
        · rw [lookupProfile_set_ne m2 aid _ k hkey] at hp2
          exact hl k p2 hp2

theorem phase2_fold (cl : List ClosedLostRecord) (m : ProfileMap) :
    ∀ m2, Phase2Inv m m2 → Phase2Inv m (cl.foldl processLostRecord m2) := by
  induction cl with
  | nil => intro m2 h; exact h
  | cons r rest ih =>
      intro m2 h
      exact ih (processLostRecord m2 r) (phase2_step m m2 r h)

theorem phase2_inv_self (m : ProfileMap) : Phase2Inv m m :=
  ⟨rfl, fun _ p2 hp2 => ⟨p2, hp2, rfl, rfl, rfl, rfl, rfl, rfl⟩⟩

/-! ## Field projections of the aggregation pass -/

theorem finalizeDerived_preserved (p : AccountScoringProfile) :
    (finalizeDerived p).total_closed_won = p.total_closed_won ∧
    (finalizeDerived p).total_closed_lost = p.total_closed_lost ∧
    (finalizeDerived p).win_rate = p.win_rate ∧
    (finalizeDerived p).total_deal_amount = p.total_deal_amount ∧
    (finalizeDerived p).largest_deal_amount = p.largest_deal_amount ∧
    (finalizeDerived p).closed_opportunities = p.closed_opportunities ∧
    (finalizeDerived p).unique_products = p.unique_products ∧
    (finalizeDerived p).most_recent_close_date = p.most_recent_close_date := by
  unfold finalizeDerived
  split <;> exact ⟨rfl, rfl, rfl, rfl, rfl, rfl, rfl, rfl⟩

theorem finalizeDerived_fields (p : AccountScoringProfile)
    (h : p.closed_opportunities.isEmpty = false) :
    (finalizeDerived p).avg_deal_amount =
      p.total_deal_amount / (p.total_closed_won : Rat) ∧
    (finalizeDerived p).purchase_count = p.total_closed_won ∧
    (finalizeDerived p).product_count = p.unique_products.card ∧
    (finalizeDerived p).has_upsell = decide (1 < p.total_closed_won) := by
  unfold finalizeDerived
  rw [h]
  exact ⟨rfl, rfl, rfl, rfl⟩

theorem finalizeRecency_preserved (today : Int) (p : AccountScoringProfile) :
    (finalizeRecency today p).total_closed_won = p.total_closed_won ∧
    (finalizeRecency today p).total_closed_lost = p.total_closed_lost ∧
    (finalizeRecency today p).win_rate = p.win_rate ∧
    (finalizeRecency today p).total_deal_amount = p.total_deal_amount ∧
    (finalizeRecency today p).largest_deal_amount = p.largest_deal_amount ∧
    (finalizeRecency today p).closed_opportunities = p.closed_opportunities ∧
    (finalizeRecency today p).unique_products = p.unique_products ∧
    (finalizeRecency today p).avg_deal_amount = p.avg_deal_amount ∧
    (finalizeRecency today p).purchase_count = p.purchase_count ∧
    (finalizeRecency today p).product_count = p.product_count ∧
    (finalizeRecency today p).has_upsell = p.has_upsell := by
  unfold finalizeRecency
  split <;> exact ⟨rfl, rfl, rfl, rfl, rfl, rfl, rfl, rfl, rfl, rfl, rfl⟩

/-! ## Destructing membership in the built profile map -/

/-- Every entry of the map returned by `build_account_profiles` is the
aggregation pass applied to a profile that carries exactly the closed-won
accumulation for its key (with some loss count). -/
theorem build_mem_destruct (today : Int) (cw : List ClosedWonRecord)
    (cl : List ClosedLostRecord) (k : String) (p : AccountScoringProfile)
    (h : (k, p) ∈ build_account_profiles today cw cl) :
    ∃ q, p = finalizeProfile today q ∧
      q.total_closed_won = (wonRecordsFor k cw).length ∧
      q.total_deal_amount = ((wonRecordsFor k cw).map (fun r => r.amount)).sum ∧
      q.largest_deal_amount =
        runningMax ((wonRecordsFor k cw).map (fun r => r.amount)) ∧
      q.closed_opportunities = (wonRecordsFor k cw).filterMap cycleContribution ∧
      q.win_rate = 0 := by
  obtain ⟨hnodup1, hinv1⟩ := phase1_inv_of_fold cw
  have hinv2 := phase2_fold cl (cw.foldl processWonRecord [])
    (cw.foldl processWonRecord []) (phase2_inv_self _)
  obtain ⟨hkeys2, hlook2⟩ := hinv2
  unfold build_account_profiles at h
  rw [List.mem_map] at h
  obtain ⟨⟨k2, q2⟩, hq2mem, hq2eq⟩ := h
  have hk2 : k2 = k := congrArg Prod.fst hq2eq
  subst hk2
  have hpq : p = finalizeProfile today q2 := (congrArg Prod.snd hq2eq).symm
  have hnodup2 :
      ((cl.foldl processLostRecord (cw.foldl processWonRecord [])).map Prod.fst).Nodup := by
    rw [hkeys2]
    exact hnodup1
  have hlk : lookupProfile (cl.foldl processLostRecord (cw.foldl processWonRecord [])) k2 =
      some q2 := lookupProfile_of_mem _ _ _ hnodup2 hq2mem
  obtain ⟨q1, hq1, hpres⟩ := hlook2 k2 q2 hlk
  obtain ⟨b1, b2, b3, b4, b5⟩ := (hinv1 k2).2 q1 hq1
  exact ⟨q2, hpq, hpres.1.trans b1, hpres.2.1.trans b2, hpres.2.2.1.trans b3,
    hpres.2.2.2.1.trans b4, hpres.2.2.2.2.1.trans b5⟩

theorem finalize_win_rate_eq (today : Int) (q : AccountScoringProfile) :
    (finalizeProfile today q).win_rate = calculate_win_rate q := by
  unfold finalizeProfile
  rw [(finalizeRecency_preserved today _).2.2.1, (finalizeDerived_preserved _).2.2.1]

theorem finalize_won_eq (today : Int) (q : AccountScoringProfile) :
    (finalizeProfile today q).total_closed_won = q.total_closed_won := by
  unfold finalizeProfile
  rw [(finalizeRecency_preserved today _).1, (finalizeDerived_preserved _).1]

theorem finalize_lost_eq (today : Int) (q : AccountScoringProfile) :
    (finalizeProfile today q).total_closed_lost = q.total_closed_lost := by
  unfold finalizeProfile
  rw [(finalizeRecency_preserved today _).2.1, (finalizeDerived_preserved _).2.1]

theorem finalize_total_deal_eq (today : Int) (q : AccountScoringProfile) :
    (finalizeProfile today q).total_deal_amount = q.total_deal_amount := by
  unfold finalizeProfile
  rw [(finalizeRecency_preserved today _).2.2.2.1, (finalizeDerived_preserved _).2.2.2.1]

theorem finalize_largest_eq (today : Int) (q : AccountScoringProfile) :
    (finalizeProfile today q).largest_deal_amount = q.largest_deal_amount := by
  unfold finalizeProfile
  rw [(finalizeRecency_preserved today _).2.2.2.2.1,
    (finalizeDerived_preserved _).2.2.2.2.1]

theorem finalize_closed_eq (today : Int) (q : AccountScoringProfile) :
    (finalizeProfile today q).closed_opportunities = q.closed_opportunities := by
  unfold finalizeProfile
  rw [(finalizeRecency_preserved today _).2.2.2.2.2.1,
    (finalizeDerived_preserved _).2.2.2.2.2.1]

theorem finalize_products_eq (today : Int) (q : AccountScoringProfile) :
    (finalizeProfile today q).unique_products = q.unique_products := by
  unfold finalizeProfile
  rw [(finalizeRecency_preserved today _).2.2.2.2.2.2.1,
    (finalizeDerived_preserved _).2.2.2.2.2.2.1]

/-- Every profile in the built map carries the win-rate formula, with the
range `[0, 100]` that follows from it. -/
theorem build_win_rate_spec (today : Int) (cw : List ClosedWonRecord)
    (cl : List ClosedLostRecord) (k : String) (p : AccountScoringProfile)
    (h : (k, p) ∈ build_account_profiles today cw cl) :
    p.win_rate =
      (if 0 < p.total_closed_won + p.total_closed_lost
       then ((p.total_closed_won : Rat) /
         ((p.total_closed_won : Rat) + (p.total_closed_lost : Rat))) * 100
       else 0) ∧
    0 ≤ p.win_rate ∧ p.win_rate ≤ 100 := by
  obtain ⟨q, hpq, hwon, htot, hlg, hco, hwr⟩ := build_mem_destruct today cw cl k p h
  subst hpq
  rw [finalize_win_rate_eq, finalize_won_eq, finalize_lost_eq]
  have hfr : calculate_win_rate q =
      (if 0 < q.total_closed_won + q.total_closed_lost
       then ((q.total_closed_won : Rat) /
         ((q.total_closed_won : Rat) + (q.total_closed_lost : Rat))) * 100
       else 0) := by
    unfold calculate_win_rate
    rw [hwr]
    split <;> rename_i hc <;> push_cast <;> simp [hc]
  rw [hfr]
  refine ⟨rfl, ?_⟩
  split
  · rename_i hcond
    have hwpos : (0:Rat) ≤ (q.total_closed_won : Rat) := Nat.cast_nonneg _
    have hlpos : (0:Rat) ≤ (q.total_closed_lost : Rat) := Nat.cast_nonneg _
    have htpos : (0:Rat) < (q.total_closed_won : Rat) + (q.total_closed_lost : Rat) := by
      exact_mod_cast hcond
    have hle1 : (q.total_closed_won : Rat) /
        ((q.total_closed_won : Rat) + (q.total_closed_lost : Rat)) ≤ 1 := by
      rw [div_le_one htpos]
      linarith
    have hge0 : 0 ≤ (q.total_closed_won : Rat) /
        ((q.total_closed_won : Rat) + (q.total_closed_lost : Rat)) :=
      div_nonneg hwpos (le_of_lt htpos)
    constructor
    · nlinarith
    · nlinarith
  · norm_num

theorem gProfile_mem : ("001G", gProfile) ∈ build_account_profiles 20 cwGood clGood := by
  have hb : build_account_profiles 20 cwGood clGood = [("001G", gProfile)] := by
    norm_num [build_account_profiles, processWonRecord, wonUpdate, addCycleEntry,
      addWonCounts, addProducts, updateMostRecent, processLostRecord, lookupProfile,
      setProfile, initProfile, finalizeProfile, finalizeDerived, finalizeRecency,
      calculate_win_rate, listMean, listMedian, listMin, listMax, sortRat, insertSorted,
      cwGoodRecord, cwGood, clGood, gProfile]
  rw [hb]
  exact List.mem_singleton_self _

/-- C7: for every account profile produced by `build_account_profiles`,
`win_rate = closed_won / (closed_won + closed_lost) × 100` when the
denominator is positive and `0` otherwise, hence `win_rate ∈ [0, 100]`. -/
theorem C7_win_rate_formula_and_range (today : Int) (cw : List ClosedWonRecord)
    (cl : List ClosedLostRecord) (k : String) (p : AccountScoringProfile)
    (h : (k, p) ∈ build_account_profiles today cw cl) :
    p.win_rate =
      (if 0 < p.total_closed_won + p.total_closed_lost
       then ((p.total_closed_won : Rat) /
         ((p.total_closed_won : Rat) + (p.total_closed_lost : Rat))) * 100
       else 0) ∧
    0 ≤ p.win_rate ∧ p.win_rate ≤ 100 :=
  build_win_rate_spec today cw cl k p h

/-- Witness for C7: the profile built from one win and one loss. -/
theorem C7_witness :
    gProfile.win_rate =
      (if 0 < gProfile.total_closed_won + gProfile.total_closed_lost
       then ((gProfile.total_closed_won : Rat) /
         ((gProfile.total_closed_won : Rat) + (gProfile.total_closed_lost : Rat))) * 100
       else 0) ∧
    0 ≤ gProfile.win_rate ∧ gProfile.win_rate ≤ 100 :=
  C7_win_rate_formula_and_range 20 cwGood clGood "001G" gProfile gProfile_mem

/-- C2 (amended): for every account profiled by `build_account_profiles`
whose cycle-time sample is non-empty (at least one record with parseable
dates and strictly positive duration), the derived fields satisfy
`avg_deal_amount = total_deal_amount / closed_won`,
`purchase_count = closed_won`, `has_upsell ⇔ purchase_count > 1` and
`product_count = |product set|`. Malformed dates on the other records
degrade only the cycle-time sample. (The original claim also covered the
case where all of the account's records have malformed dates; the code
skips the whole derived block then — see the counterexample.) -/
theorem C2_profile_derived_fields (today : Int) (cw : List ClosedWonRecord)
    (cl : List ClosedLostRecord) (k : String) (p : AccountScoringProfile)
    (h : (k, p) ∈ build_account_profiles today cw cl)
    (hne : p.closed_opportunities ≠ []) :
    p.avg_deal_amount = p.total_deal_amount / (p.total_closed_won : Rat) ∧
    p.purchase_count = p.total_closed_won ∧
    (p.has_upsell = true ↔ 1 < p.purchase_count) ∧
    p.product_count = p.unique_products.card := by
  obtain ⟨q, hpq, hwon, htot, hlg, hco, hwr⟩ := build_mem_destruct today cw cl k p h
  have hclosed : p.closed_opportunities = q.closed_opportunities := by
    rw [hpq]
    exact finalize_closed_eq today q
  rw [hclosed] at hne
  subst hpq
  have hfp : finalizeProfile today q =
      finalizeRecency today
        (finalizeDerived { q with win_rate := calculate_win_rate q }) := rfl
  have hfalse : ({ q with win_rate := calculate_win_rate q} :
      AccountScoringProfile).closed_opportunities.isEmpty = false := by
    show q.closed_opportunities.isEmpty = false
    cases hq2 : q.closed_opportunities with
    | nil => exact absurd hq2 hne
    | cons a l => rfl
  obtain ⟨d1, d2, d3, d4⟩ := finalizeDerived_fields _ hfalse
  obtain ⟨r1, r2, r3, r4, r5, r6, r7, r8, r9, r10, r11⟩ :=
    finalizeRecency_preserved today
      (finalizeDerived { q with win_rate := calculate_win_rate q })
  obtain ⟨e1, e2, e3, e4, e5, e6, e7, e8⟩ :=
    finalizeDerived_preserved
      ({ q with win_rate := calculate_win_rate q} : AccountScoringProfile)
  refine ⟨?_, ?_, ?_, ?_⟩
  · rw [hfp, r8, d1, r4, e4, r1, e1]
  · rw [hfp, r9, d2, r1, e1]
  · rw [hfp, r11, d4, r9, d2]
    exact decide_eq_true_iff
  · rw [hfp, r10, d3, r7, e7]

/-- Witness for C2: the profile built from one fully-parseable record. -/
theorem C2_witness :
    gProfile.avg_deal_amount = gProfile.total_deal_amount / (gProfile.total_closed_won : Rat) ∧
    gProfile.purchase_count = gProfile.total_closed_won ∧
    (gProfile.has_upsell = true ↔ 1 < gProfile.purchase_count) ∧
    gProfile.product_count = gProfile.unique_products.card :=
  C2_profile_derived_fields 20 cwGood clGood "001G" gProfile gProfile_mem
    (by norm_num [gProfile])

/-- Counterexample for C2 as stated: an account whose single closed-won
record has a malformed close date is profiled with `total_closed_won = 1`
but keeps `purchase_count = 0` (the whole derived block is skipped), so
`purchase_count = closed_won` fails. -/
theorem C2_counterexample :
    (build_account_profiles 0 cwAllMalformed []).map
      (fun e => (e.1, e.2.total_closed_won, e.2.purchase_count)) = [("001A", 1, 0)] ∧
    ¬ (∀ e ∈ build_account_profiles 0 cwAllMalformed [],
        e.2.purchase_count = e.2.total_closed_won) := by
  constructor
  · decide
  · decide

/-- C3 (amended): in `build_account_profiles`, a closed-won record whose
dates both parse and whose duration `(close − created).days` is strictly
positive contributes that duration to its account's cycle-time sample
(`cycleContribution`); all other records — unparsable dates, or
non-positive duration, the latter tightened from the claimed
"negative duration" — are excluded from this sample only, while every
matching record still counts toward `closed_won`, `total_deal_amount` and
the running `largest_deal_amount`. -/
theorem C3_cycle_sample_characterization (today : Int) (cw : List ClosedWonRecord)
    (cl : List ClosedLostRecord) (k : String) (p : AccountScoringProfile)
    (h : (k, p) ∈ build_account_profiles today cw cl) :
    p.closed_opportunities = (wonRecordsFor k cw).filterMap cycleContribution ∧
    p.total_closed_won = (wonRecordsFor k cw).length ∧
    p.total_deal_amount = ((wonRecordsFor k cw).map (fun r => r.amount)).sum ∧
    p.largest_deal_amount =
      runningMax ((wonRecordsFor k cw).map (fun r => r.amount)) := by
  obtain ⟨q, hpq, hwon, htot, hlg, hco, hwr⟩ := build_mem_destruct today cw cl k p h
  subst hpq
  rw [finalize_closed_eq, finalize_won_eq, finalize_total_deal_eq, finalize_largest_eq]
  exact ⟨hco, hwon, htot, hlg⟩

/-- Witness for C3: the account with one parseable 10-day record. -/
theorem C3_witness :
    gProfile.closed_opportunities =
      (wonRecordsFor "001G" cwGood).filterMap cycleContribution ∧
    gProfile.total_closed_won = (wonRecordsFor "001G" cwGood).length ∧
    gProfile.total_deal_amount =
      ((wonRecordsFor "001G" cwGood).map (fun r => r.amount)).sum ∧
    gProfile.largest_deal_amount =
      runningMax ((wonRecordsFor "001G" cwGood).map (fun r => r.amount)) :=
  C3_cycle_sample_characterization 20 cwGood clGood "001G" gProfile gProfile_mem

/-- Counterexample for C3 as stated: a record whose dates both parse and
satisfy close ≥ created (equal dates, zero-day duration) contributes
nothing to the cycle-time sample, which stays empty, while the claim as
stated would put a zero-day entry in it. -/
theorem C3_counterexample :
    (build_account_profiles 0 cwZeroDay []).map
      (fun e => (e.1, e.2.total_closed_won, e.2.closed_opportunities.length)) =
      [("001B", 1, 0)] ∧
    ¬ (∀ e ∈ build_account_profiles 0 cwZeroDay [],
        e.2.closed_opportunities.length = e.2.total_closed_won) := by
  constructor
  · decide
  · decide

/-- C8: `upsell_score` is the step function of `purchase_count` mapping
0→0, 1→30, 2→70, ≥3→100, and is strictly monotone across purchase counts
1, 2, 3 (regardless of every other profile field). -/
theorem C8_upsell_step_monotone :
    (∀ p : AccountScoringProfile, p.purchase_count = 0 → calculate_upsell_score p = 0) ∧
    (∀ p : AccountScoringProfile, p.purchase_count = 1 → calculate_upsell_score p = 30) ∧
    (∀ p : AccountScoringProfile, p.purchase_count = 2 → calculate_upsell_score p = 70) ∧
    (∀ p : AccountScoringProfile, 3 ≤ p.purchase_count → calculate_upsell_score p = 100) ∧
    (∀ p q : AccountScoringProfile, 1 ≤ p.purchase_count →
      p.purchase_count < q.purchase_count → q.purchase_count ≤ 3 →
      calculate_upsell_score p < calculate_upsell_score q) := by
  refine ⟨?_, ?_, ?_, ?_, ?_⟩
  · intro p h
    simp [calculate_upsell_score, h]
  · intro p h
    simp [calculate_upsell_score, h]
  · intro p h
    simp [calculate_upsell_score, h]
  · intro p h
    simp [calculate_upsell_score, h]
  · intro p q h1 h2 h3
    have hp : p.purchase_count = 1 ∨ p.purchase_count = 2 := by omega
    have hq : q.purchase_count = 2 ∨ q.purchase_count = 3 := by omega
    rcases hp with hp | hp <;> rcases hq with hq | hq <;>
      first
        | omega
        | norm_num [calculate_upsell_score, hp, hq]

/-- Witness for C8: the three step values and one strict increase, at
concrete profiles. -/
theorem C8_witness :
    calculate_upsell_score gProfile = 30 ∧
    calculate_upsell_score { gProfile with purchase_count := 2 } = 70 ∧
    calculate_upsell_score gProfile <
      calculate_upsell_score { gProfile with purchase_count := 2 } :=
  ⟨C8_upsell_step_monotone.2.1 gProfile rfl,
   C8_upsell_step_monotone.2.2.1 { gProfile with purchase_count := 2 } rfl,
   C8_upsell_step_monotone.2.2.2.2 gProfile { gProfile with purchase_count := 2 }
     (by decide) (by decide) (by decide)⟩

/-- C9: on an empty profile map `calculate_normalized_scores` substitutes
the fixed fallback maxima (365 days, a 1,000,000 deal ceiling), and the
effective denominators of the speed and deal-size normalizations in
`score_open_opportunities` are strictly positive for every statistics
value, so the two divisions can never be by zero. -/
theorem C9_empty_cohort_fallback :
    (calculate_normalized_scores []).days_to_close.hi = 365 ∧
    (calculate_normalized_scores []).largest_deal.hi = 1000000 ∧
    (0 : Rat) < (calculate_normalized_scores []).largest_deal.hi ∧
    (∀ stats : NormalizedStats, 0 < maxDaysDenom stats ∧ 0 < maxDealDenom stats) := by
  refine ⟨rfl, rfl, ?_, ?_⟩
  · show (0 : Rat) < 1000000
    norm_num
  intro stats
  constructor
  · unfold maxDaysDenom
    split
    · assumption
    · norm_num
  · unfold maxDealDenom
    split
    · assumption
    · norm_num

/-- C4 (amended): whenever the account profile has
`avg_deal_amount > 0`, the `opp_amount_score` used in the
opportunity-score blend is one of {25, 50, 75, 100}, bucketed by the ratio
of the opportunity amount to `avg_deal_amount` exactly as claimed; and the
blend is `opportunity_score = 0.70·account_score + 0.30·opp_amount_score`.
(When `avg_deal_amount = 0` — possible even for an account with ≥ 1
closed-won deal — the score is 0 instead; see the counterexample.) -/
theorem C4_opp_amount_ratio_buckets (profile : AccountScoringProfile) (amount : Rat)
    (h : 0 < profile.avg_deal_amount) :
    oppAmountScore profile amount ∈ ({25, 50, 75, 100} : Set Rat) ∧
    (1.5 ≤ amount / profile.avg_deal_amount → oppAmountScore profile amount = 100) ∧
    (1 ≤ amount / profile.avg_deal_amount → amount / profile.avg_deal_amount < 1.5 →
      oppAmountScore profile amount = 75) ∧
    (0.75 ≤ amount / profile.avg_deal_amount → amount / profile.avg_deal_amount < 1 →
      oppAmountScore profile amount = 50) ∧
    (amount / profile.avg_deal_amount < 0.75 → oppAmountScore profile amount = 25) ∧
    (∀ (stats : NormalizedStats) (s : OpportunityScore),
      (applyHistoricalScores profile stats s).opportunity_score =
        (applyHistoricalScores profile stats s).account_score * 0.70 +
          oppAmountScore profile s.amount * 0.30) := by
  have hos : oppAmountScore profile amount =
      (if 1.5 ≤ amount / profile.avg_deal_amount then 100
       else if 1 ≤ amount / profile.avg_deal_amount then 75
       else if 0.75 ≤ amount / profile.avg_deal_amount then 50 else 25) := by
    unfold oppAmountScore
    rw [if_pos h]
  refine ⟨?_, ?_, ?_, ?_, ?_, ?_⟩
  · rw [hos]
    split_ifs <;> simp [Set.mem_insert_iff]
  · intro h1
    rw [hos, if_pos h1]
  · intro h1 h2
    rw [hos, if_neg (by linarith), if_pos h1]
  · intro h1 h2
    rw [hos, if_neg (by linarith), if_neg (by linarith), if_pos h1]
  · intro h1
    rw [hos, if_neg (by linarith), if_neg (by linarith), if_neg (by linarith)]
  · intro stats s
    rfl

/-- Witness for C4: a $150 opportunity against an account averaging $100
(ratio 1.5). -/
theorem C4_witness :
    oppAmountScore gProfile 150 ∈ ({25, 50, 75, 100} : Set Rat) ∧
    (1.5 ≤ (150 : Rat) / gProfile.avg_deal_amount → oppAmountScore gProfile 150 = 100) ∧
    (1 ≤ (150 : Rat) / gProfile.avg_deal_amount → (150 : Rat) / gProfile.avg_deal_amount < 1.5 →
      oppAmountScore gProfile 150 = 75) ∧
    (0.75 ≤ (150 : Rat) / gProfile.avg_deal_amount → (150 : Rat) / gProfile.avg_deal_amount < 1 →
      oppAmountScore gProfile 150 = 50) ∧
    ((150 : Rat) / gProfile.avg_deal_amount < 0.75 → oppAmountScore gProfile 150 = 25) ∧
    (∀ (stats : NormalizedStats) (s : OpportunityScore),
      (applyHistoricalScores gProfile stats s).opportunity_score =
        (applyHistoricalScores gProfile stats s).account_score * 0.70 +
          oppAmountScore gProfile s.amount * 0.30) :=
  C4_opp_amount_ratio_buckets gProfile 150 (by norm_num [gProfile])

/-- Counterexample for C4 as stated: the account built from one
malformed-date record is qualifying (`total_closed_won = 1`), yet its
ratio score is 0 — not one of {25, 50, 75, 100} — because
`avg_deal_amount` was never set and the guard `avg_deal_amount > 0`
fails. -/
theorem C4_counterexample :
    (build_account_profiles 0 cwAllMalformed []).map
      (fun e => (e.2.total_closed_won, oppAmountScore e.2 50)) = [(1, 0)] ∧
    (0 : Rat) ∉ ({25, 50, 75, 100} : Set Rat) := by
  constructor
  · decide
  · norm_num [Set.mem_insert_iff]

/-! ## Structure of the scoring loop's output -/

theorem lookupProfile_mem (m : ProfileMap) (k : String)
    (p : AccountScoringProfile) (h : lookupProfile m k = some p) : (k, p) ∈ m := by
  induction m with
  | nil => simp [lookupProfile] at h
  | cons e rest ih =>
      obtain ⟨k1, q1⟩ := e
      by_cases h1 : k1 = k
      · subst h1
        simp only [lookupProfile, if_pos rfl] at h
        injection h with h2
        subst h2
        exact List.mem_cons_self ..
      · simp only [lookupProfile, h1, if_false] at h
        exact List.mem_cons_of_mem _ (ih h)

theorem score_open_nil (today : Int) (profiles : ProfileMap)
    (stats : NormalizedStats) :
    score_open_opportunities today [] profiles stats = Except.ok [] := rfl

theorem score_open_cons (today : Int) (profiles : ProfileMap)
    (stats : NormalizedStats) (o : OpenOppRecord) (rest : List OpenOppRecord) :
    score_open_opportunities today (o :: rest) profiles stats =
      (match scoreRecord today profiles stats o with
       | .error e => .error e
       | .ok none => score_open_opportunities today rest profiles stats
       | .ok (some s) =>
           match score_open_opportunities today rest profiles stats with
           | .error e => .error e
           | .ok tl => .ok (s :: tl)) := rfl

/-- A produced score comes from a record with an account id, and is either
the historical scoring of a qualifying profile or the cold-branch
scoring. -/
theorem scoreRecord_ok_some (today : Int) (profiles : ProfileMap)
    (stats : NormalizedStats) (o : OpenOppRecord) (s : OpportunityScore)
    (h : scoreRecord today profiles stats o = Except.ok (some s)) :
    ∃ aid cd, o.accountId = some aid ∧
      parseOpenCloseDate today o.closeDate = Except.ok cd ∧
      ((∃ profile, lookupProfile profiles aid = some profile ∧
          0 < profile.total_closed_won ∧
          s = applyHistoricalScores profile stats (baseScore o aid cd)) ∨
       ((∀ profile, lookupProfile profiles aid = some profile →
           ¬ 0 < profile.total_closed_won) ∧
        s = applyColdScores (baseScore o aid cd))) := by
  cases hacc : o.accountId with
  | none =>
      simp [scoreRecord, hacc] at h
  | some aid =>
      cases hcd : parseOpenCloseDate today o.closeDate with
      | error e =>
          simp [scoreRecord, hacc, hcd] at h
      | ok cd =>
          refine ⟨aid, cd, rfl, rfl, ?_⟩
          cases hlp : lookupProfile profiles aid with
          | none =>
              simp only [scoreRecord, hacc, hcd, hlp, Except.ok.injEq,
                Option.some.injEq] at h
              right
              refine ⟨fun profile hp => ?_, h.symm⟩
              simp at hp
          | some profile =>
              by_cases hw : 0 < profile.total_closed_won
              · left
                simp only [scoreRecord, hacc, hcd, hlp, if_pos hw, Except.ok.injEq,
                  Option.some.injEq] at h
                exact ⟨profile, rfl, hw, h.symm⟩
              · right
                simp only [scoreRecord, hacc, hcd, hlp, if_neg hw, Except.ok.injEq,
                  Option.some.injEq] at h
                refine ⟨fun profile2 hp2 => ?_, h.symm⟩
                injection hp2 with hx
                rw [← hx]
                exact hw

/-- Every member of a successful batch is the scoring of some input
record, through exactly one of the two branches. -/
theorem mem_score_structure (today : Int) (profiles : ProfileMap)
    (stats : NormalizedStats) (opps : List OpenOppRecord)
    (l : List OpportunityScore)
    (hok : score_open_opportunities today opps profiles stats = Except.ok l)
    (s : OpportunityScore) (hs : s ∈ l) :
    ∃ o aid cd, o ∈ opps ∧ o.accountId = some aid ∧
      ((∃ profile, lookupProfile profiles aid = some profile ∧
          0 < profile.total_closed_won ∧
          s = applyHistoricalScores profile stats (baseScore o aid cd)) ∨
       ((∀ profile, lookupProfile profiles aid = some profile →
           ¬ 0 < profile.total_closed_won) ∧
        s = applyColdScores (baseScore o aid cd))) := by
  induction opps generalizing l with
  | nil =>
      rw [score_open_nil] at hok
      injection hok with h2
      subst h2
      cases hs
  | cons o rest ih =>
      rw [score_open_cons] at hok
      cases hsr : scoreRecord today profiles stats o with
      | error e =>
          rw [hsr] at hok
          exact absurd hok (by simp)
      | ok oh =>
          rw [hsr] at hok
          cases oh with
          | none =>
              obtain ⟨o2, aid, cd, ho2, hacc, hbr⟩ := ih l hok hs
              exact ⟨o2, aid, cd, List.mem_cons_of_mem _ ho2, hacc, hbr⟩
          | some s2 =>
              cases hrest : score_open_opportunities today rest profiles stats with
              | error e =>
                  rw [hrest] at hok
                  exact absurd hok (by simp)
              | ok tl =>
                  rw [hrest] at hok
                  injection hok with hok2
                  subst hok2
                  rcases List.mem_cons.mp hs with hseq | hstl
                  · subst hseq
                    obtain ⟨aid, cd, hacc, hcd, hbr⟩ :=
                      scoreRecord_ok_some today profiles stats o s hsr
                    exact ⟨o, aid, cd, List.mem_cons_self .., hacc, hbr⟩
                  · obtain ⟨o2, aid, cd, ho2, hacc, hbr⟩ := ih tl hrest hstl
                    exact ⟨o2, aid, cd, List.mem_cons_of_mem _ ho2, hacc, hbr⟩

/-! ## Range of the component and composite scores -/

theorem speedScore_bounds (p : AccountScoringProfile) (st : NormalizedStats) :
    0 ≤ speedScore p st ∧ speedScore p st ≤ 100 := by
  unfold speedScore
  split
  · exact ⟨le_min (by norm_num) (le_max_left 0 _), min_le_left _ _⟩
  · norm_num

theorem dealSizeScore_bounds (p : AccountScoringProfile) (st : NormalizedStats) :
    0 ≤ dealSizeScore p st ∧ dealSizeScore p st ≤ 100 := by
  unfold dealSizeScore
  split
  · exact ⟨le_min (by norm_num) (le_max_left 0 _), min_le_left _ _⟩
  · norm_num

theorem product_mix_bounds (p : AccountScoringProfile) :
    0 ≤ calculate_product_diversity_score p ∧
      calculate_product_diversity_score p ≤ 100 := by
  unfold calculate_product_diversity_score
  split
  · norm_num
  · exact ⟨le_min (by positivity) (by norm_num), min_le_right _ _⟩

theorem upsell_bounds (p : AccountScoringProfile) :
    0 ≤ calculate_upsell_score p ∧ calculate_upsell_score p ≤ 100 := by
  unfold calculate_upsell_score
  split_ifs <;> norm_num

theorem winRateScore_bounds (p : AccountScoringProfile) (h : 0 ≤ p.win_rate) :
    0 ≤ winRateScore p ∧ winRateScore p ≤ 100 := by
  unfold winRateScore
  exact ⟨le_min (by norm_num) h, min_le_left _ _⟩

theorem recency_bounds (p : AccountScoringProfile) :
    0 ≤ recencyScore p ∧ recencyScore p ≤ 100 := by
  unfold recencyScore
  split
  · split_ifs <;> norm_num
  · norm_num

theorem oppAmountScore_bounds (p : AccountScoringProfile) (amt : Rat) :
    0 ≤ oppAmountScore p amt ∧ oppAmountScore p amt ≤ 100 := by
  unfold oppAmountScore
  dsimp only
  constructor <;> split_ifs <;> norm_num

theorem accountScoreOf_bounds (p : AccountScoringProfile) (st : NormalizedStats)
    (h : 0 ≤ p.win_rate) :
    0 ≤ accountScoreOf p st ∧ accountScoreOf p st ≤ 100 := by
  obtain ⟨a1, a2⟩ := speedScore_bounds p st
  obtain ⟨b1, b2⟩ := dealSizeScore_bounds p st
  obtain ⟨c1, c2⟩ := product_mix_bounds p
  obtain ⟨d1, d2⟩ := upsell_bounds p
  obtain ⟨e1, e2⟩ := winRateScore_bounds p h
  obtain ⟨f1, f2⟩ := recency_bounds p
  unfold accountScoreOf
  constructor <;> linarith

/-- A member scored while its account has no qualifying profile is exactly
the cold-branch scoring of its base record. -/
theorem cold_member_structure (today : Int) (profiles : ProfileMap)
    (stats : NormalizedStats) (opps : List OpenOppRecord)
    (l : List OpportunityScore)
    (hok : score_open_opportunities today opps profiles stats = Except.ok l)
    (s : OpportunityScore) (hs : s ∈ l)
    (hcold : ∀ p, lookupProfile profiles s.account_id = some p →
      p.total_closed_won = 0) :
    ∃ o aid cd, s = applyColdScores (baseScore o aid cd) := by
  obtain ⟨o, aid, cd, ho, hacc, hbr⟩ :=
    mem_score_structure today profiles stats opps l hok s hs
  rcases hbr with ⟨profile, hlp, hw, hsh⟩ | ⟨hnq, hsc⟩
  · have hsid : s.account_id = aid := by
      rw [hsh]
      rfl
    have hzero := hcold profile (by rw [hsid]; exact hlp)
    omega
  · exact ⟨o, aid, cd, hsc⟩

/-- C6: an opportunity whose account has zero closed-won deals (profile
absent, or present with `total_closed_won = 0`) is scored with
`account_score = 50`, `opportunity_score = 50`, `confidence_level = "Low"`
and the no-historical-data explanation. -/
theorem C6_cold_account_neutral (today : Int) (opps : List OpenOppRecord)
    (profiles : ProfileMap) (stats : NormalizedStats) (l : List OpportunityScore)
    (hok : score_open_opportunities today opps profiles stats = Except.ok l)
    (s : OpportunityScore) (hs : s ∈ l)
    (hcold : ∀ p, lookupProfile profiles s.account_id = some p →
      p.total_closed_won = 0) :
    s.account_score = 50 ∧ s.opportunity_score = 50 ∧
      s.confidence_level = "Low" ∧
      s.score_explanation = "New account - no historical data available." := by
  obtain ⟨o, aid, cd, hsc⟩ :=
    cold_member_structure today profiles stats opps l hok s hs hcold
  rw [hsc]
  exact ⟨rfl, rfl, rfl, rfl⟩

/-- Witness for C6: one opportunity scored against an empty profile map. -/
theorem C6_witness :
    sCold.account_score = 50 ∧ sCold.opportunity_score = 50 ∧
      sCold.confidence_level = "Low" ∧
      sCold.score_explanation = "New account - no historical data available." :=
  C6_cold_account_neutral 0 [oCold] [] statsEmpty [sCold] (by rfl) sCold
    (List.mem_singleton_self _) (fun p hp => by simp [lookupProfile] at hp)

/-- C10: for a cold account, all six component sub-score fields keep their
dataclass default `0.0`, even though both composites are set to 50. -/
theorem C10_cold_subscores_default (today : Int) (opps : List OpenOppRecord)
    (profiles : ProfileMap) (stats : NormalizedStats) (l : List OpportunityScore)
    (hok : score_open_opportunities today opps profiles stats = Except.ok l)
    (s : OpportunityScore) (hs : s ∈ l)
    (hcold : ∀ p, lookupProfile profiles s.account_id = some p →
      p.total_closed_won = 0) :
    s.speed_score = 0 ∧ s.deal_size_score = 0 ∧ s.product_mix_score = 0 ∧
      s.upsell_score = 0 ∧ s.win_rate_score = 0 ∧ s.recency_score = 0 ∧
      s.account_score = 50 ∧ s.opportunity_score = 50 := by
  obtain ⟨o, aid, cd, hsc⟩ :=
    cold_member_structure today profiles stats opps l hok s hs hcold
  rw [hsc]
  exact ⟨rfl, rfl, rfl, rfl, rfl, rfl, rfl, rfl⟩

/-- Witness for C10: the same cold run, looking at the sub-score fields. -/
theorem C10_witness :
    sCold.speed_score = 0 ∧ sCold.deal_size_score = 0 ∧
      sCold.product_mix_score = 0 ∧ sCold.upsell_score = 0 ∧
      sCold.win_rate_score = 0 ∧ sCold.recency_score = 0 ∧
      sCold.account_score = 50 ∧ sCold.opportunity_score = 50 :=
  C10_cold_subscores_default 0 [oCold] [] statsEmpty [sCold] (by rfl) sCold
    (List.mem_singleton_self _) (fun p hp => by simp [lookupProfile] at hp)

/-- C5 (amended): when no record carries a present-but-unparsable close
date (the only way the loop can raise — see the counterexample), the
batch succeeds and produces exactly one
`OpportunityScore` per input record that has an account id; records
lacking one are skipped and the batch continues. -/
theorem C5_one_score_per_record (today : Int) (opps : List OpenOppRecord)
    (profiles : ProfileMap) (stats : NormalizedStats)
    (h : ∀ o ∈ opps, o.accountId.isSome → o.closeDate ≠ some DateField.malformed) :
    ∃ l, score_open_opportunities today opps profiles stats = Except.ok l ∧
      l.length = (opps.filter (fun o => o.accountId.isSome)).length := by
  induction opps with
  | nil => exact ⟨[], rfl, rfl⟩
  | cons o rest ih =>
      obtain ⟨l, hl, hlen⟩ := ih (fun o2 ho2 => h o2 (List.mem_cons_of_mem _ ho2))
      rcases hacc : o.accountId with _ | aid
      · have hsr : scoreRecord today profiles stats o = Except.ok none := by
          simp [scoreRecord, hacc]
        refine ⟨l, ?_, ?_⟩
        · rw [score_open_cons]
          simp only [hsr]
          exact hl
        · rw [hlen, List.filter_cons]
          simp [hacc]
      · have hcdne : o.closeDate ≠ some DateField.malformed :=
          h o (List.mem_cons_self ..) (by rw [hacc]; rfl)
        obtain ⟨cd, hcd⟩ : ∃ cd, parseOpenCloseDate today o.closeDate = Except.ok cd := by
          cases hdf : o.closeDate with
          | none => exact ⟨today, rfl⟩
          | some df =>
              cases df with
              | valid d => exact ⟨d, rfl⟩
              | malformed => exact absurd hdf hcdne
        obtain ⟨s, hsr⟩ : ∃ s, scoreRecord today profiles stats o = Except.ok (some s) := by
          cases hlp : lookupProfile profiles aid with
          | none =>
              exact ⟨applyColdScores (baseScore o aid cd),
                by simp [scoreRecord, hacc, hcd, hlp]⟩
          | some profile =>
              exact ⟨if 0 < profile.total_closed_won then
                  applyHistoricalScores profile stats (baseScore o aid cd)
                else applyColdScores (baseScore o aid cd),
                by simp only [scoreRecord, hacc, hcd, hlp]⟩
        refine ⟨s :: l, ?_, ?_⟩
        · rw [score_open_cons]
          simp only [hsr, hl]
        · rw [List.filter_cons]
          simp [hacc, hlen]

/-- Counterexample for C5 as stated: a batch containing one record that
has an account id but a present, unparsable `CloseDate` produces no
`OpportunityScore` at all — the uncaught `ValueError` from the
`OpportunityScore` constructor aborts the whole call — so "exactly one
score per opportunity, missing account id the only exception" fails. -/
theorem C5_counterexample :
    score_open_opportunities 0 [oBadDate] [] statsEmpty = Except.error () ∧
    (([oBadDate] : List OpenOppRecord).filter
      (fun o => o.accountId.isSome)).length = 1 := ⟨rfl, rfl⟩

/-- Witness for C5: a two-record batch, one record without an account
id. -/
theorem C5_witness :
    ∃ l, score_open_opportunities 0 [oCold, oNoAcct] [] statsEmpty = Except.ok l ∧
      l.length = (([oCold, oNoAcct] : List OpenOppRecord).filter
        (fun o => o.accountId.isSome)).length :=
  C5_one_score_per_record 0 [oCold, oNoAcct] [] statsEmpty (by decide)

/-- C1: every score produced by `score_open_opportunities` over profiles
built by `build_account_profiles` has all six sub-scores and both
composites in `[0, 100]`. -/
theorem C1_scores_in_range (todayB todayS : Int) (cw : List ClosedWonRecord)
    (cl : List ClosedLostRecord) (stats : NormalizedStats)
    (opps : List OpenOppRecord) (l : List OpportunityScore)
    (hok : score_open_opportunities todayS opps
      (build_account_profiles todayB cw cl) stats = Except.ok l)
    (s : OpportunityScore) (hs : s ∈ l) :
    (0 ≤ s.speed_score ∧ s.speed_score ≤ 100) ∧
    (0 ≤ s.deal_size_score ∧ s.deal_size_score ≤ 100) ∧
    (0 ≤ s.product_mix_score ∧ s.product_mix_score ≤ 100) ∧
    (0 ≤ s.upsell_score ∧ s.upsell_score ≤ 100) ∧
    (0 ≤ s.win_rate_score ∧ s.win_rate_score ≤ 100) ∧
    (0 ≤ s.recency_score ∧ s.recency_score ≤ 100) ∧
    (0 ≤ s.account_score ∧ s.account_score ≤ 100) ∧
    (0 ≤ s.opportunity_score ∧ s.opportunity_score ≤ 100) := by
  obtain ⟨o, aid, cd, ho, hacc, hbr⟩ :=
    mem_score_structure todayS (build_account_profiles todayB cw cl) stats opps
      l hok s hs
  rcases hbr with ⟨profile, hlp, hw, hsh⟩ | ⟨hnq, hsc⟩
  · have hmem : (aid, profile) ∈ build_account_profiles todayB cw cl :=
      lookupProfile_mem _ _ _ hlp
    have hwr0 : 0 ≤ profile.win_rate :=
      (build_win_rate_spec todayB cw cl aid profile hmem).2.1
    subst hsh
    obtain ⟨a1, a2⟩ := speedScore_bounds profile stats
    obtain ⟨b1, b2⟩ := dealSizeScore_bounds profile stats
    obtain ⟨c1, c2⟩ := product_mix_bounds profile
    obtain ⟨d1, d2⟩ := upsell_bounds profile
    obtain ⟨e1, e2⟩ := winRateScore_bounds profile hwr0
    obtain ⟨f1, f2⟩ := recency_bounds profile
    obtain ⟨g1, g2⟩ := accountScoreOf_bounds profile stats hwr0
    obtain ⟨i1, i2⟩ := oppAmountScore_bounds profile (baseScore o aid cd).amount
    refine ⟨⟨a1, a2⟩, ⟨b1, b2⟩, ⟨c1, c2⟩, ⟨d1, d2⟩, ⟨e1, e2⟩, ⟨f1, f2⟩,
      ⟨g1, g2⟩, ⟨?_, ?_⟩⟩
    · show 0 ≤ accountScoreOf profile stats * 0.70 +
        oppAmountScore profile (baseScore o aid cd).amount * 0.30
      linarith
    · show accountScoreOf profile stats * 0.70 +
        oppAmountScore profile (baseScore o aid cd).amount * 0.30 ≤ 100
      linarith
  · subst hsc
    norm_num [applyColdScores, baseScore]

/-- Witness for C1: one cold-scored opportunity. -/
theorem C1_witness :
    (0 ≤ sCold.speed_score ∧ sCold.speed_score ≤ 100) ∧
    (0 ≤ sCold.deal_size_score ∧ sCold.deal_size_score ≤ 100) ∧
    (0 ≤ sCold.product_mix_score ∧ sCold.product_mix_score ≤ 100) ∧
    (0 ≤ sCold.upsell_score ∧ sCold.upsell_score ≤ 100) ∧
    (0 ≤ sCold.win_rate_score ∧ sCold.win_rate_score ≤ 100) ∧
    (0 ≤ sCold.recency_score ∧ sCold.recency_score ≤ 100) ∧
    (0 ≤ sCold.account_score ∧ sCold.account_score ≤ 100) ∧
    (0 ≤ sCold.opportunity_score ∧ sCold.opportunity_score ≤ 100) :=
  C1_scores_in_range 0 0 [] [] statsEmpty [oCold] [sCold] (by rfl) sCold
    (List.mem_singleton_self _)

end PipelineScore
